import Mathlib

/-!
# Verification of the resume-builder core (claims over a shallow embedding)

Shallow embedding of the core logic of the resumeai repository:

* the Local Draft Store (`client/src/lib/localStorage.ts`):
  `saveResumeToLocalStorage`, `getResumeFromLocalStorage` and the fixed
  default draft;
* the Text Projection (`client/src/lib/resumeService.ts`): `resumeToText`;
* the simulated optimization / cover-letter service (`server/routes.ts`):
  `optimizeForATS`, `generateCoverLetter`, and the `GET /api/resumes/:id`
  route handler;
* the repository layer (`server/storage.ts`): `MemStorage` and
  `DatabaseStorage` create/read/update, with the database shallowly
  embedded as a key/value table;
* the list-entry removal handlers of the builder forms.

JavaScript-value conventions used throughout:

* A TypeScript `string | undefined` field is `Option String`; `none` is
  `undefined` / an absent key.
* `a || b` on strings is falsy exactly on `""` and `undefined`; `a ?? b`
  falls through only on `undefined`/`null`.  Arrays (even empty ones) are
  always truthy; the number `0` is falsy.
* `Date.now()` / `new Date()` timestamps are passed in explicitly as a
  `Nat` parameter, making every operation a pure function of its inputs.
-/

/-- JS `a || b` where `a : string | undefined` and the result must be a
string: `""` and `undefined` are falsy and fall through to `b`. -/
def jsOrStr (a : Option String) (b : String) : String :=
  match a with
  | some s => if s = "" then b else s
  | none => b

/-- JS `a || b` where both sides are `string | undefined`. -/
def jsOrOptStr (a : Option String) (b : Option String) : Option String :=
  match a with
  | some s => if s = "" then b else some s
  | none => b

/-- Object-spread override: a key present in the later object (even with
value `""`) wins; an absent key keeps the value from the earlier object. -/
def spreadOpt (a : Option String) (b : Option String) : Option String :=
  match a with
  | some s => some s
  | none => b

/-- JS truthiness of a `string | undefined` value. -/
def jsTruthy (o : Option String) : Bool :=
  match o with
  | some s => s ≠ ""
  | none => false

/-- JS `x || ""` for `x : string | undefined` (used when interpolating
optional fields into template literals). -/
def jsStr (o : Option String) : String := o.getD ""

/-- JS truthiness of a `boolean | undefined` value. -/
def jsBool (o : Option Bool) : Bool := o.getD false

/-! ## Domain model (`shared/schema.ts`, zod types) -/

/-- `PersonalInfo` (`personalInfoSchema`): firstName/lastName/email are
required strings; phone/summary/website/linkedin are optional. -/
structure PersonalInfo where
  firstName : String
  lastName : String
  email : String
  phone : Option String
  summary : Option String
  website : Option String
  linkedin : Option String
deriving Repr, DecidableEq

/-- `EducationItem` (`educationItemSchema`). -/
structure EducationItem where
  id : String
  school : String
  degree : String
  startDate : String
  endDate : Option String
  description : Option String
  current : Option Bool
deriving Repr, DecidableEq

/-- `ExperienceItem` (`experienceItemSchema`). -/
structure ExperienceItem where
  id : String
  company : String
  position : String
  startDate : String
  endDate : Option String
  description : Option String
  current : Option Bool
deriving Repr, DecidableEq

/-- `ProjectItem` (`projectItemSchema`). -/
structure ProjectItem where
  id : String
  name : String
  technologies : Option String
  url : Option String
  description : Option String
deriving Repr, DecidableEq

/-- The client `Resume` type (`resumeSchema`). -/
structure Resume where
  personalInfo : PersonalInfo
  education : List EducationItem
  experience : List ExperienceItem
  skills : List String
  projects : List ProjectItem
  templateStyle : Option String
  colorScheme : Option String
  isAtsOptimized : Option Bool
  targetRole : Option String
  atsScore : Option Nat
deriving Repr, DecidableEq

/-! ## Local Draft Store (`client/src/lib/localStorage.ts`) -/

/-- `SavedResumeData`: the shape written under the fixed localStorage key.
`targetRole?` is optional in the interface; all other keys are present in
every value the store itself writes. -/
structure SavedResumeData where
  personalInfo : PersonalInfo
  education : List EducationItem
  experience : List ExperienceItem
  skills : List String
  projects : List ProjectItem
  templateStyle : String
  colorScheme : String
  isAtsOptimized : Bool
  targetRole : Option String
  lastUpdated : Nat
deriving Repr, DecidableEq

/-- `Partial<PersonalInfo>`: every key optional; a present key carries the
string that was supplied (object spread then overrides with it). -/
structure PartialPersonalInfo where
  firstName : Option String := none
  lastName : Option String := none
  email : Option String := none
  phone : Option String := none
  summary : Option String := none
  website : Option String := none
  linkedin : Option String := none
deriving Repr, DecidableEq

/-- `Partial<Resume>`: the argument type of `saveResumeToLocalStorage`.
At runtime the function merges whatever keys are present, so
`personalInfo`, when present, may itself be partial. -/
structure PartialResume where
  personalInfo : Option PartialPersonalInfo := none
  education : Option (List EducationItem) := none
  experience : Option (List ExperienceItem) := none
  skills : Option (List String) := none
  projects : Option (List ProjectItem) := none
  templateStyle : Option String := none
  colorScheme : Option String := none
  isAtsOptimized : Option Bool := none
  targetRole : Option String := none
deriving Repr, DecidableEq

/-- The `defaultData` personal-info object built inside
`getResumeFromLocalStorage` (all seven keys present, each `""`). -/
def defaultPersonalInfo : PersonalInfo :=
  { firstName := "", lastName := "", email := "", phone := some "",
    summary := some "", website := some "", linkedin := some "" }

/-- The fixed `defaultData` draft of `getResumeFromLocalStorage`. -/
def defaultData : SavedResumeData :=
  { personalInfo := defaultPersonalInfo
    education := []
    experience := []
    skills := []
    projects := []
    templateStyle := "professional"
    colorScheme := "blue"
    isAtsOptimized := true
    targetRole := some ""
    lastUpdated := 0 }

/-- The content stored under the key: either a JSON string that parses to
a `SavedResumeData`, or a string on which `JSON.parse` throws. -/
inductive StoredValue where
  | parsable (v : SavedResumeData)
  | corrupt
deriving Repr, DecidableEq

/-- The localStorage slot: `none` models an absent key
(`localStorage.getItem` returns `null`). -/
abbrev LocalStore := Option StoredValue

/-- `JSON.parse(savedData) as SavedResumeData`: succeeds on a parsable
string, throws (here: returns `.error`) on a corrupt one. -/
def parseStoredValue : StoredValue → Except String SavedResumeData
  | .parsable v => .ok v
  | .corrupt => .error "SyntaxError: Unexpected token in JSON"

/-- `getResumeFromLocalStorage`: absent key → `defaultData`; parse failure
is caught (the `catch` branch logs and returns `defaultData`); a parsed
value is spread over `defaultData` (`{...defaultData, ...parsedData}`),
shallow at top level, so only the optional `targetRole` key can actually
fall back to the default. -/
def getResumeFromLocalStorage (store : LocalStore) : SavedResumeData :=
  match store with
  | none => defaultData
  | some raw =>
    match parseStoredValue raw with
    | .ok parsed =>
      { parsed with targetRole := spreadOpt parsed.targetRole defaultData.targetRole }
    | .error _ => defaultData

/-- `{...currentData.personalInfo, ...(data.personalInfo || {})}`:
key-wise spread, one level deep. -/
def mergePersonalInfo (p : Option PartialPersonalInfo) (cur : PersonalInfo) :
    PersonalInfo :=
  match p with
  | none => cur
  | some q =>
    { firstName := q.firstName.getD cur.firstName
      lastName := q.lastName.getD cur.lastName
      email := q.email.getD cur.email
      phone := spreadOpt q.phone cur.phone
      summary := spreadOpt q.summary cur.summary
      website := spreadOpt q.website cur.website
      linkedin := spreadOpt q.linkedin cur.linkedin }

/-- The `updatedData` object of `saveResumeToLocalStorage`: arrays use
`||` (arrays are always truthy, so a present array — even `[]` —
replaces), `isAtsOptimized` uses `??`, the top-level strings use `||`
(a present `""` is falsy and retains the prior value), and
`lastUpdated` is stamped with `Date.now()`. -/
def mergeSave (now : Nat) (data : PartialResume) (currentData : SavedResumeData) :
    SavedResumeData :=
  { personalInfo := mergePersonalInfo data.personalInfo currentData.personalInfo
    education := data.education.getD currentData.education
    experience := data.experience.getD currentData.experience
    skills := data.skills.getD currentData.skills
    projects := data.projects.getD currentData.projects
    templateStyle := jsOrStr data.templateStyle currentData.templateStyle
    colorScheme := jsOrStr data.colorScheme currentData.colorScheme
    isAtsOptimized := data.isAtsOptimized.getD currentData.isAtsOptimized
    targetRole := jsOrOptStr data.targetRole currentData.targetRole
    lastUpdated := now }

/-- `saveResumeToLocalStorage`: reads the current draft via
`getResumeFromLocalStorage`, merges the partial into it, and writes the
JSON-serialized result back under the fixed key. -/
def saveResumeToLocalStorage (now : Nat) (data : PartialResume) (store : LocalStore) :
    LocalStore :=
  some (.parsable (mergeSave now data (getResumeFromLocalStorage store)))

/-! ## Text Projection (`resumeToText` in `client/src/lib/resumeService.ts`) -/

/-- Lines of one experience entry:
`position at company`, the date range (`current` renders `"Present"`),
then the description, followed by a blank line. -/
def expEntryText (exp : ExperienceItem) : String :=
  exp.position ++ " at " ++ exp.company ++ "\n" ++
    exp.startDate ++ " - " ++
      (if jsBool exp.current then "Present" else jsStr exp.endDate) ++ "\n" ++
    jsStr exp.description ++ "\n\n"

/-- Lines of one education entry: `degree at school`, date range,
description. -/
def eduEntryText (edu : EducationItem) : String :=
  edu.degree ++ " at " ++ edu.school ++ "\n" ++
    edu.startDate ++ " - " ++
      (if jsBool edu.current then "Present" else jsStr edu.endDate) ++ "\n" ++
    jsStr edu.description ++ "\n\n"

/-- Lines of one project entry: name, technologies, optional URL,
description. -/
def projEntryText (project : ProjectItem) : String :=
  project.name ++ "\n" ++
    "Technologies: " ++ jsStr project.technologies ++ "\n" ++
    (if jsTruthy project.url then "URL: " ++ jsStr project.url ++ "\n" else "") ++
    jsStr project.description ++ "\n\n"

/-- The header part of `resumeToText`: name line, contact line, the two
conditional link lines, and the `SUMMARY` section. -/
def headerText (personalInfo : PersonalInfo) : String :=
  personalInfo.firstName ++ " " ++ personalInfo.lastName ++ "\n" ++
    personalInfo.email ++ " | " ++ jsStr personalInfo.phone ++ "\n" ++
    (if jsTruthy personalInfo.website then
      "Website: " ++ jsStr personalInfo.website ++ "\n" else "") ++
    (if jsTruthy personalInfo.linkedin then
      "LinkedIn: " ++ jsStr personalInfo.linkedin ++ "\n" else "") ++
    "\nSUMMARY\n" ++ jsStr personalInfo.summary ++ "\n\n"

/-- `if (experience.length > 0) { text += "EXPERIENCE\n"; forEach ... }`. -/
def experienceSection (experience : List ExperienceItem) : String :=
  if experience.length > 0 then
    "EXPERIENCE\n" ++ String.join (experience.map expEntryText)
  else ""

/-- `if (education.length > 0) { text += "EDUCATION\n"; forEach ... }`. -/
def educationSection (education : List EducationItem) : String :=
  if education.length > 0 then
    "EDUCATION\n" ++ String.join (education.map eduEntryText)
  else ""

/-- `if (skills.length > 0) { text += "SKILLS\n"; skills.join(", ") ... }`. -/
def skillsSection (skills : List String) : String :=
  if skills.length > 0 then
    "SKILLS\n" ++ String.intercalate ", " skills ++ "\n\n"
  else ""

/-- `if (projects.length > 0) { text += "PROJECTS\n"; forEach ... }`. -/
def projectsSection (projects : List ProjectItem) : String :=
  if projects.length > 0 then
    "PROJECTS\n" ++ String.join (projects.map projEntryText)
  else ""

/-- `resumeToText`: the sequential `text +=` appends, in source order. -/
def resumeToText (resumeData : Resume) : String :=
  headerText resumeData.personalInfo ++
    experienceSection resumeData.experience ++
    educationSection resumeData.education ++
    skillsSection resumeData.skills ++
    projectsSection resumeData.projects

/-! ## Simulated optimization service (`optimizeForATS` in `server/routes.ts`) -/

/-- The annotation block appended by `optimizeForATS`: role-specific when
`targetRole` is truthy, generic otherwise. -/
def roleSpecificText (targetRole : Option String) : String :=
  if jsTruthy targetRole then
    "\n\n[ATS Optimized for " ++ (jsStr targetRole ++ ("]\n- Added " ++
      (jsStr targetRole ++ ("-specific keywords\n- Highlighted relevant skills for " ++
        (jsStr targetRole ++ ("\n- Reordered experience to emphasize " ++
          (jsStr targetRole ++ " qualifications\n- Improved formatting for ATS systems")))))))
  else
    "\n\n[ATS Optimized]\n- Added relevant keywords\n- Improved formatting\n- Enhanced readability for ATS systems"

structure OptimizeResult where
  optimizedText : String
  atsScore : Nat
deriving Repr, DecidableEq

/-- `optimizeForATS`: appends the annotation block to the input text and
returns `Math.floor(Math.random() * 31) + 65` as the score.  The value of
`Math.floor(Math.random() * 31)` is passed in as `draw`; since
`Math.random()` ranges over `[0, 1)`, `draw` ranges over `0..30`. -/
def optimizeForATS (resumeText : String) (targetRole : Option String)
    (draw : Nat) : OptimizeResult :=
  { optimizedText := resumeText ++ roleSpecificText targetRole
    atsScore := draw + 65 }

/-! ## Simulated cover-letter service (`generateCoverLetter` in `server/routes.ts`) -/

/-- The `greeting` constant: names the company when `companyName` is
truthy, else the generic greeting. -/
def coverGreeting (companyName : Option String) : String :=
  if jsTruthy companyName then
    "Dear " ++ jsStr companyName ++ " Hiring Team,"
  else
    "Dear Hiring Manager,"

/-- The `introduction` constant: names the target role when truthy. -/
def coverIntroduction (targetRole : String) : String :=
  if targetRole ≠ "" then
    "I am writing to express my interest in the " ++ targetRole ++ " position."
  else
    "I am writing to express my interest in the open position at your company."

/-- The static `body` constant (two paragraphs). -/
def coverBody : String :=
  "After reviewing the job description, I believe my skills and experience make me a strong candidate. My background has prepared me for the challenges of this role, and I am excited about the opportunity to contribute to your team.\n\nBased on my resume, I have relevant experience that aligns with your requirements. My approach combines technical expertise with a strong work ethic, which enables me to deliver high-quality results consistently."

/-- The `closing` constant: names the company when truthy, else generic. -/
def coverClosing (companyName : Option String) : String :=
  if jsTruthy companyName then
    "I am particularly drawn to " ++ jsStr companyName ++
      " because of your reputation for innovation and excellence in the industry. I would welcome the opportunity to discuss how my qualifications align with your needs."
  else
    "I would welcome the opportunity to discuss how my qualifications align with your needs for this position."

/-- The fixed final paragraphs of the returned template, ending in the
literal `[Your Name]` placeholder. -/
def coverFinal : String :=
  "Thank you for considering my application. I look forward to the possibility of working with your team.\n\nSincerely,\n[Your Name]"

/-- `generateCoverLetter`: the returned template literal.  `resumeText`
is a parameter of the source function but is never interpolated into the
result. -/
def generateCoverLetter (resumeText : String) (targetRole : String)
    (companyName : Option String) : String :=
  coverGreeting companyName ++ ("\n\n" ++ (coverIntroduction targetRole ++
    ("\n\n" ++ (coverBody ++ ("\n\n" ++ (coverClosing companyName ++
      ("\n\n" ++ coverFinal)))))))

/-! ## Server record model and repository layer (`server/storage.ts`) -/

/-- `ResumeData` (`typeof resumes.$inferSelect`): one row of the
`resumes` table.  Nullable text columns are `Option String`; the four
JSON list columns always hold lists (every write path supplies one);
timestamps are epoch numbers supplied by the caller. -/
structure ResumeData where
  id : Nat
  userId : Nat
  firstName : Option String
  lastName : Option String
  email : Option String
  phone : Option String
  summary : Option String
  website : Option String
  linkedin : Option String
  education : List EducationItem
  experience : List ExperienceItem
  skills : List String
  projects : List ProjectItem
  templateStyle : Option String
  colorScheme : Option String
  targetRole : Option String
  isAtsOptimized : Bool
  atsScore : Option Int
  createdAt : Nat
  updatedAt : Nat
deriving Repr, DecidableEq

/-- `Partial<ResumeData>`: the payload of `createResume`/`updateResume`.
An outer `none` is an absent key; for nullable columns the inner
`Option` is the `string | null` value of the column. -/
structure PartialResumeData where
  id : Option Nat := none
  userId : Option Nat := none
  firstName : Option (Option String) := none
  lastName : Option (Option String) := none
  email : Option (Option String) := none
  phone : Option (Option String) := none
  summary : Option (Option String) := none
  website : Option (Option String) := none
  linkedin : Option (Option String) := none
  education : Option (List EducationItem) := none
  experience : Option (List ExperienceItem) := none
  skills : Option (List String) := none
  projects : Option (List ProjectItem) := none
  templateStyle : Option (Option String) := none
  colorScheme : Option (Option String) := none
  targetRole : Option (Option String) := none
  isAtsOptimized : Option Bool := none
  atsScore : Option (Option Int) := none
  createdAt : Option Nat := none
  updatedAt : Option Nat := none
deriving Repr, DecidableEq

/-- JS `v || null` for `v : string | null | undefined`: any falsy value
(absent key, `null`, `""`) becomes `null`. -/
def jsOrNull (a : Option (Option String)) : Option String :=
  match a with
  | some (some s) => if s = "" then none else some s
  | _ => none

/-- JS `v || d` for `v : string | null | undefined` with a non-empty
string default `d`. -/
def jsOrStrDefault (a : Option (Option String)) (d : String) : String :=
  match a with
  | some (some s) => if s = "" then d else s
  | _ => d

/-- JS `v || d` on numbers: `0`, `null` and `undefined` are falsy. -/
def jsOrNat (a : Option Nat) (d : Nat) : Nat :=
  match a with
  | some n => if n = 0 then d else n
  | none => d

/-- The table contents: association list from row id to row, plus the
next value of the serial id column. -/
structure ResumeTable where
  rows : List (Nat × ResumeData)
  nextId : Nat
deriving Repr, DecidableEq

/-- Row lookup by primary key (`where(eq(resumes.id, id))` /
`this.resumes.get(id)`). -/
def ResumeTable.lookup (t : ResumeTable) (id : Nat) : Option ResumeData :=
  (t.rows.find? (fun p => p.1 = id)).map Prod.snd

/-- `Map.set` / SQL `UPDATE`-in-place: replace the row when the key
exists, else append it. -/
def ResumeTable.set (t : ResumeTable) (id : Nat) (r : ResumeData) : ResumeTable :=
  if t.rows.any (fun p => p.1 = id) then
    { t with rows := t.rows.map (fun p => if p.1 = id then (id, r) else p) }
  else
    { t with rows := t.rows ++ [(id, r)] }

/-- The freshly-constructed `MemStorage` (`resumes` empty,
`resumeIdCounter = 1`); also the initial state of the embedded database
table. -/
def emptyResumeTable : ResumeTable := { rows := [], nextId := 1 }

/-- The row built by both `createResume` implementations from a payload
with `atsScore` already stripped: every field defaulted with `||` as in
the source (`validData.firstName || null`, `validData.education || []`,
`validData.templateStyle || "professional"`, `validData.userId || 1`,
`validData.isAtsOptimized || false`). -/
def buildCreatedRow (id now : Nat) (validData : PartialResumeData) : ResumeData :=
  { id := id
    userId := jsOrNat validData.userId 1
    firstName := jsOrNull validData.firstName
    lastName := jsOrNull validData.lastName
    email := jsOrNull validData.email
    phone := jsOrNull validData.phone
    summary := jsOrNull validData.summary
    website := jsOrNull validData.website
    linkedin := jsOrNull validData.linkedin
    education := validData.education.getD []
    experience := validData.experience.getD []
    skills := validData.skills.getD []
    projects := validData.projects.getD []
    templateStyle := some (jsOrStrDefault validData.templateStyle "professional")
    colorScheme := some (jsOrStrDefault validData.colorScheme "blue")
    targetRole := jsOrNull validData.targetRole
    isAtsOptimized := validData.isAtsOptimized.getD false
    atsScore := none
    createdAt := now
    updatedAt := now }

namespace MemStorage

/-- `MemStorage.getResume`. -/
def getResume (s : ResumeTable) (id : Nat) : Option ResumeData :=
  s.lookup id

/-- `MemStorage.createResume`: takes the next counter value as the id,
builds the row with the `||` defaults, sets `atsScore` to `null` and
both timestamps to `now`, and stores it under the new id. -/
def createResume (s : ResumeTable) (now : Nat) (data : PartialResumeData) :
    ResumeData × ResumeTable :=
  let id := s.nextId
  let resume := buildCreatedRow id now data
  (resume, { (s.set id resume) with nextId := s.nextId + 1 })

/-- `MemStorage.updateResume`:
`{...existingResume, ...data, updatedAt: new Date()}` — every key
present in `data` overrides the stored row (`id` and `atsScore`
included; nothing is stripped), absent keys keep the stored value, and
`updatedAt` is stamped last. -/
def updateResume (s : ResumeTable) (now : Nat) (id : Nat)
    (data : PartialResumeData) : Option ResumeData × ResumeTable :=
  match s.lookup id with
  | none => (none, s)
  | some existingResume =>
    let updatedResume : ResumeData :=
      { id := data.id.getD existingResume.id
        userId := data.userId.getD existingResume.userId
        firstName := data.firstName.getD existingResume.firstName
        lastName := data.lastName.getD existingResume.lastName
        email := data.email.getD existingResume.email
        phone := data.phone.getD existingResume.phone
        summary := data.summary.getD existingResume.summary
        website := data.website.getD existingResume.website
        linkedin := data.linkedin.getD existingResume.linkedin
        education := data.education.getD existingResume.education
        experience := data.experience.getD existingResume.experience
        skills := data.skills.getD existingResume.skills
        projects := data.projects.getD existingResume.projects
        templateStyle := data.templateStyle.getD existingResume.templateStyle
        colorScheme := data.colorScheme.getD existingResume.colorScheme
        targetRole := data.targetRole.getD existingResume.targetRole
        isAtsOptimized := data.isAtsOptimized.getD existingResume.isAtsOptimized
        atsScore := data.atsScore.getD existingResume.atsScore
        createdAt := data.createdAt.getD existingResume.createdAt
        updatedAt := now }
    (some updatedResume, s.set id updatedResume)

end MemStorage

namespace DatabaseStorage

/-- `DatabaseStorage.getResume` (`select ... where eq(resumes.id, id)`). -/
def getResume (t : ResumeTable) (id : Nat) : Option ResumeData :=
  t.lookup id

/-- `DatabaseStorage.createResume`: destructures `atsScore` out of the
payload (`const { atsScore, ...validData } = data`) and inserts a row
with the same `||` defaults as `MemStorage`; the `ats_score` column is
not in the value list of the insert, so it comes back `null`, and the
timestamp columns take their `defaultNow()` value `now`. -/
def createResume (t : ResumeTable) (now : Nat) (data : PartialResumeData) :
    ResumeData × ResumeTable :=
  let validData := { data with atsScore := none }
  let id := t.nextId
  let resume := buildCreatedRow id now validData
  (resume, { (t.set id resume) with nextId := t.nextId + 1 })

/-- `DatabaseStorage.updateResume`: destructures `id` and `atsScore` out
of the payload (`const { id: _, atsScore, ...validUpdateData } = data`),
then `update(resumes).set({...validUpdateData, updatedAt: new Date()})`
— only the keys present in `validUpdateData` (plus `updatedAt`) are
written; the `id` and `ats_score` columns of the row are untouched. -/
def updateResume (t : ResumeTable) (now : Nat) (id : Nat)
    (data : PartialResumeData) : Option ResumeData × ResumeTable :=
  let validUpdateData := { data with id := none, atsScore := none }
  match t.lookup id with
  | none => (none, t)
  | some existing =>
    let updated : ResumeData :=
      { id := existing.id
        userId := validUpdateData.userId.getD existing.userId
        firstName := validUpdateData.firstName.getD existing.firstName
        lastName := validUpdateData.lastName.getD existing.lastName
        email := validUpdateData.email.getD existing.email
        phone := validUpdateData.phone.getD existing.phone
        summary := validUpdateData.summary.getD existing.summary
        website := validUpdateData.website.getD existing.website
        linkedin := validUpdateData.linkedin.getD existing.linkedin
        education := validUpdateData.education.getD existing.education
        experience := validUpdateData.experience.getD existing.experience
        skills := validUpdateData.skills.getD existing.skills
        projects := validUpdateData.projects.getD existing.projects
        templateStyle := validUpdateData.templateStyle.getD existing.templateStyle
        colorScheme := validUpdateData.colorScheme.getD existing.colorScheme
        targetRole := validUpdateData.targetRole.getD existing.targetRole
        isAtsOptimized := validUpdateData.isAtsOptimized.getD existing.isAtsOptimized
        atsScore := existing.atsScore
        createdAt := validUpdateData.createdAt.getD existing.createdAt
        updatedAt := now }
    (some updated, t.set id updated)

end DatabaseStorage

/-! ## `GET /api/resumes/:id` route (`server/routes.ts`) -/

/-- Value of a decimal digit character. -/
def digitToNat (c : Char) : Nat := c.toNat - 48

/-- Decimal value of a digit run. -/
def digitsToNat (ds : List Char) : Nat :=
  ds.foldl (fun a c => a * 10 + digitToNat c) 0

/-- The whitespace characters `parseInt` skips. -/
def jsWhitespace (c : Char) : Bool :=
  c = ' ' ∨ c = '\t' ∨ c = '\n' ∨ c = '\r'

/-- After the sign is consumed: the longest leading digit run gives the
value (`NaN` — here `none` — when the run is empty); trailing garbage is
ignored. -/
def jsParseIntSigned (sign : Int) (rest : List Char) : Option Int :=
  if (rest.takeWhile Char.isDigit).isEmpty then none
  else some (sign * (digitsToNat (rest.takeWhile Char.isDigit) : Int))

/-- Consume an optional leading sign. -/
def jsParseIntAux (cs : List Char) : Option Int :=
  match cs with
  | [] => jsParseIntSigned 1 []
  | c :: r =>
    if c = '-' then jsParseIntSigned (-1) r
    else if c = '+' then jsParseIntSigned 1 r
    else jsParseIntSigned 1 (c :: r)

/-- JS `parseInt(s)` on decimal input: skip leading whitespace, take an
optional sign, then the longest leading digit run — trailing garbage is
ignored; the result is `NaN` (here `none`) only when that run is empty.
(The hexadecimal `0x` prefix form of `parseInt` is irrelevant to route
ids and is not modelled.) -/
def jsParseInt (s : String) : Option Int :=
  jsParseIntAux (s.data.dropWhile jsWhitespace)

/-- Outcome of the `GET /api/resumes/:id` handler. -/
inductive GetResumeResponse where
  | ok (r : ResumeData)
  | badRequest
  | notFound
deriving Repr, DecidableEq

/-- Primary-key lookup for a parsed (possibly negative) id: no row has a
negative serial id. -/
def lookupIntId (t : ResumeTable) (id : Int) : Option ResumeData :=
  (t.rows.find? (fun p => (p.1 : Int) = id)).map Prod.snd

/-- The `GET /api/resumes/:id` handler: `parseInt` the path segment,
400 when `isNaN(id)`, 404 when `storage.getResume(id)` is undefined,
else the record. -/
def getResumeRoute (t : ResumeTable) (idParam : String) : GetResumeResponse :=
  match jsParseInt idParam with
  | none => .badRequest
  | some id =>
    match lookupIntId t id with
    | none => .notFound
    | some resume => .ok resume

/-- Modelled from the spec: "400 if id not numeric" — the id path
segment read as a plain decimal numeral (non-empty, digits only). -/
def isNumericSegment (s : String) : Bool :=
  s ≠ "" ∧ s.data.all Char.isDigit

/-! ## Draft list-entry removal (builder forms) -/

/-- `handleRemoveSkill`: `skills.filter((_, i) => i !== index)`. -/
def handleRemoveSkill (skills : List String) (index : Nat) : List String :=
  ((skills.enum.filter (fun p => p.1 ≠ index)).map Prod.snd)

/-- `remove(index)` of `useFieldArray` (react-hook-form), as invoked by
the Remove buttons of the education, experience and project forms: deletes the
entry at the given position. -/
def removeFieldAt (l : List EducationItem) (index : Nat) : List EducationItem :=
  l.eraseIdx index

/-- Modelled from the spec: removal "by identity (id)" — drop the
entries whose `id` equals the given one. -/
def removeEducationById (l : List EducationItem) (id : String) : List EducationItem :=
  l.filter (fun e => e.id ≠ id)

/-! ## Builder initial state (`client/src/pages/ResumeBuilder.tsx`) -/

/-- The `useState<Resume>` initializer of `ResumeBuilder` (lines 33-51):
the in-memory draft before any stored data is hydrated. -/
def builderInitialResumeData : Resume :=
  { personalInfo :=
      { firstName := "", lastName := "", email := "", phone := some ""
        summary := some "", website := some "", linkedin := some "" }
    education := []
    experience := []
    skills := []
    projects := []
    templateStyle := some "professional"
    colorScheme := some "blue"
    isAtsOptimized := some true
    targetRole := some ""
    atsScore := none }

/-- A concrete stored row used to exercise the repository operations. -/
def sampleRow : ResumeData :=
  { id := 1, userId := 1, firstName := some "Ana", lastName := none,
    email := none, phone := none, summary := none, website := none,
    linkedin := none, education := [], experience := [], skills := [],
    projects := [], templateStyle := some "professional",
    colorScheme := some "blue", targetRole := none,
    isAtsOptimized := false, atsScore := none, createdAt := 0, updatedAt := 0 }

/-- A table holding `sampleRow` under id 1. -/
def sampleTable : ResumeTable := { rows := [(1, sampleRow)], nextId := 2 }

/-- Sample education entries for the removal counterexample and
witness. -/
def eduA : EducationItem :=
  { id := "x", school := "A University", degree := "BS", startDate := "2019",
    endDate := none, description := none, current := none }

/-- Second entry sharing an id with `eduA`. -/
def eduB : EducationItem :=
  { id := "x", school := "B College", degree := "BA", startDate := "2020",
    endDate := none, description := none, current := none }

/-- Entry with a distinct id. -/
def eduC : EducationItem :=
  { id := "y", school := "C Institute", degree := "MS", startDate := "2021",
    endDate := none, description := none, current := none }

/-! ## Shared lemmas -/

/-- A `mergeSave` result always carries a present `targetRole` key as
long as the prior draft does: `data.targetRole || currentData.targetRole`
never produces `undefined` from a present fallback. -/
theorem mergeSave_targetRole_isSome (now : Nat) (data : PartialResume)
    (cur : SavedResumeData) (h : cur.targetRole.isSome) :
    (mergeSave now data cur).targetRole.isSome := by
  simp only [mergeSave, jsOrOptStr]
  cases data.targetRole with
  | none => exact h
  | some s =>
    by_cases hs : s = "" <;> simp [hs, h]

/-- Loading a stored draft whose `targetRole` key is present gives back
exactly the stored draft: the shallow spread over `defaultData` changes
nothing. -/
theorem load_parsable_eq (v : SavedResumeData) (h : v.targetRole.isSome) :
    getResumeFromLocalStorage (some (.parsable v)) = v := by
  obtain ⟨x, hx⟩ := Option.isSome_iff_exists.mp h
  simp only [getResumeFromLocalStorage, parseStoredValue, spreadOpt, hx]
  cases v
  simp_all

/-! ## Claims -/

/-- C10: the fixed default draft — returned by `load()` on a
never-written or corrupted store and used as the initial builder
in-memory state — has `isAtsOptimized` set to `true`, so a fresh draft
on which no optimization has ever run is already flagged as
ATS-optimized. -/
theorem C10_fresh_draft_flagged_optimized :
    defaultData.isAtsOptimized = true ∧
    getResumeFromLocalStorage none = defaultData ∧
    (getResumeFromLocalStorage (some .corrupt)).isAtsOptimized = true ∧
    builderInitialResumeData.isAtsOptimized = some true :=
  ⟨rfl, rfl, rfl, rfl⟩

/-- C2: for every stored value that fails to parse, `load()` returns the
fixed default draft; the failure is caught internally (the embedding is
a total function — the `catch` branch yields `defaultData` instead of
propagating the `JSON.parse` exception). -/
theorem C2_corrupted_load_returns_defaults (raw : StoredValue)
    (h : ∃ msg, parseStoredValue raw = .error msg) :
    getResumeFromLocalStorage (some raw) = defaultData := by
  obtain ⟨msg, hmsg⟩ := h
  cases raw with
  | parsable v => simp [parseStoredValue] at hmsg
  | corrupt => rfl

/-- Witness for C2 at the concrete corrupt stored value. -/
theorem C2_corrupted_load_returns_defaults_witness :
    (∃ msg, parseStoredValue .corrupt = .error msg) ∧
    getResumeFromLocalStorage (some .corrupt) = defaultData :=
  ⟨⟨_, rfl⟩, C2_corrupted_load_returns_defaults .corrupt ⟨_, rfl⟩⟩

/-- C4: `optimize` returns `optimizedText` that starts with the exact
input text, appends an annotation block mentioning the target role when
a non-empty one is given, and an `atsScore` in `[65, 95]` for every
value `Math.floor(Math.random() * 31)` can take. -/
theorem C4_optimize_contract (resumeText : String) (targetRole : Option String)
    (draw : Nat) (hdraw : draw ≤ 30) :
    (∃ rest, (optimizeForATS resumeText targetRole draw).optimizedText
        = resumeText ++ rest) ∧
    (∀ role : String, role ≠ "" → targetRole = some role →
      ∃ tail, (optimizeForATS resumeText targetRole draw).optimizedText
        = resumeText ++ ("\n\n[ATS Optimized for " ++ (role ++ tail))) ∧
    65 ≤ (optimizeForATS resumeText targetRole draw).atsScore ∧
    (optimizeForATS resumeText targetRole draw).atsScore ≤ 95 := by
  refine ⟨⟨roleSpecificText targetRole, rfl⟩, ?_, ?_, ?_⟩
  · intro role hrole hsome
    subst hsome
    refine ⟨"]\n- Added " ++ (role ++
      ("-specific keywords\n- Highlighted relevant skills for " ++ (role ++
        ("\n- Reordered experience to emphasize " ++ (role ++
          " qualifications\n- Improved formatting for ATS systems"))))), ?_⟩
    simp [optimizeForATS, roleSpecificText, jsTruthy, jsStr, hrole]
  · exact Nat.le_add_left 65 draw
  · simpa [optimizeForATS] using Nat.add_le_add_right hdraw 65

/-- Witness for C4 at the concrete example of §8 of the spec. -/
theorem C4_optimize_contract_witness :
    (∃ rest, (optimizeForATS "Jane Doe\nRegistered Nurse" (some "Nurse") 0).optimizedText
        = "Jane Doe\nRegistered Nurse" ++ rest) ∧
    (∃ tail, (optimizeForATS "Jane Doe\nRegistered Nurse" (some "Nurse") 0).optimizedText
        = "Jane Doe\nRegistered Nurse" ++ ("\n\n[ATS Optimized for " ++ ("Nurse" ++ tail))) ∧
    65 ≤ (optimizeForATS "Jane Doe\nRegistered Nurse" (some "Nurse") 0).atsScore ∧
    (optimizeForATS "Jane Doe\nRegistered Nurse" (some "Nurse") 0).atsScore ≤ 95 := by
  have h := C4_optimize_contract "Jane Doe\nRegistered Nurse" (some "Nurse") 0 (by decide)
  exact ⟨h.1, h.2.1 "Nurse" (by decide) rfl, h.2.2.1, h.2.2.2⟩

/-- C5: `generateCoverLetter` with company "Acme" contains the literal
greeting `Dear Acme Hiring Team,` and the literal placeholder
`[Your Name]`; with no company the greeting is `Dear Hiring Manager,`;
and the letter decomposes as greeting/introduction/body/closing/final
where only the greeting and closing depend on `companyName` (the
introduction depends only on the role; body and final text are fixed). -/
theorem C5_cover_letter_contract (resumeText targetRole : String) :
    (∃ rest, generateCoverLetter resumeText targetRole (some "Acme")
        = "Dear Acme Hiring Team," ++ rest) ∧
    (∃ pre, generateCoverLetter resumeText targetRole (some "Acme")
        = pre ++ "[Your Name]") ∧
    (∃ rest, generateCoverLetter resumeText targetRole none
        = "Dear Hiring Manager," ++ rest) ∧
    (∀ companyName : Option String,
      generateCoverLetter resumeText targetRole companyName
        = coverGreeting companyName ++ ("\n\n" ++ (coverIntroduction targetRole ++
            ("\n\n" ++ (coverBody ++ ("\n\n" ++ (coverClosing companyName ++
              ("\n\n" ++ coverFinal)))))))) := by
  refine ⟨?_, ?_, ?_, fun _ => rfl⟩
  · refine ⟨"\n\n" ++ (coverIntroduction targetRole ++ ("\n\n" ++ (coverBody ++
      ("\n\n" ++ (coverClosing (some "Acme") ++ ("\n\n" ++ coverFinal)))))), ?_⟩
    have hg : coverGreeting (some "Acme") = "Dear Acme Hiring Team," := by decide
    rw [generateCoverLetter, hg]
  · refine ⟨coverGreeting (some "Acme") ++ ("\n\n" ++ (coverIntroduction targetRole ++
      ("\n\n" ++ (coverBody ++ ("\n\n" ++ (coverClosing (some "Acme") ++ ("\n\n" ++
        "Thank you for considering my application. I look forward to the possibility of working with your team.\n\nSincerely,\n"))))))), ?_⟩
    have hf : coverFinal =
        "Thank you for considering my application. I look forward to the possibility of working with your team.\n\nSincerely,\n" ++
          "[Your Name]" := by decide
    rw [generateCoverLetter, hf]
    simp [String.append_assoc]
  · refine ⟨"\n\n" ++ (coverIntroduction targetRole ++ ("\n\n" ++ (coverBody ++
      ("\n\n" ++ (coverClosing none ++ ("\n\n" ++ coverFinal)))))), ?_⟩
    have hg : coverGreeting none = "Dear Hiring Manager," := by decide
    rw [generateCoverLetter, hg]

/-- C3: the Text Projection is deterministic (equal drafts give
byte-identical strings), and each list section is omitted entirely when
its list is empty — with zero entries the whole output equals the
concatenation of the remaining parts, so the projection emits no
`EXPERIENCE` (resp. `EDUCATION`, `SKILLS`, `PROJECTS`) heading — while a
non-empty list makes the heading occur in the output. -/
theorem C3_text_projection_sections (r : Resume) :
    (∀ r2 : Resume, r = r2 → resumeToText r = resumeToText r2) ∧
    (r.experience = [] →
      resumeToText r = headerText r.personalInfo ++ educationSection r.education ++
        skillsSection r.skills ++ projectsSection r.projects) ∧
    (r.experience ≠ [] →
      ∃ a b, resumeToText r = a ++ ("EXPERIENCE\n" ++ b)) ∧
    (r.education = [] →
      resumeToText r = headerText r.personalInfo ++ experienceSection r.experience ++
        skillsSection r.skills ++ projectsSection r.projects) ∧
    (r.education ≠ [] →
      ∃ a b, resumeToText r = a ++ ("EDUCATION\n" ++ b)) ∧
    (r.skills = [] →
      resumeToText r = headerText r.personalInfo ++ experienceSection r.experience ++
        educationSection r.education ++ projectsSection r.projects) ∧
    (r.skills ≠ [] →
      ∃ a b, resumeToText r = a ++ ("SKILLS\n" ++ b)) ∧
    (r.projects = [] →
      resumeToText r = headerText r.personalInfo ++ experienceSection r.experience ++
        educationSection r.education ++ skillsSection r.skills) ∧
    (r.projects ≠ [] →
      ∃ a b, resumeToText r = a ++ ("PROJECTS\n" ++ b)) := by
  refine ⟨fun r2 h => h ▸ rfl, ?_, ?_, ?_, ?_, ?_, ?_, ?_, ?_⟩
  · intro h
    simp [resumeToText, experienceSection, h, String.append_empty]
  · intro h
    refine ⟨headerText r.personalInfo,
      String.join (r.experience.map expEntryText) ++ (educationSection r.education ++
        (skillsSection r.skills ++ projectsSection r.projects)), ?_⟩
    have hl : 0 < r.experience.length := List.length_pos.mpr h
    simp [resumeToText, experienceSection, hl, String.append_assoc]
  · intro h
    simp [resumeToText, educationSection, h, String.append_empty]
  · intro h
    refine ⟨headerText r.personalInfo ++ experienceSection r.experience,
      String.join (r.education.map eduEntryText) ++
        (skillsSection r.skills ++ projectsSection r.projects), ?_⟩
    have hl : 0 < r.education.length := List.length_pos.mpr h
    simp [resumeToText, educationSection, hl, String.append_assoc]
  · intro h
    simp [resumeToText, skillsSection, h, String.append_empty]
  · intro h
    refine ⟨headerText r.personalInfo ++ (experienceSection r.experience ++
      educationSection r.education),
      String.intercalate ", " r.skills ++ "\n\n" ++ projectsSection r.projects, ?_⟩
    have hl : 0 < r.skills.length := List.length_pos.mpr h
    simp [resumeToText, skillsSection, hl, String.append_assoc]
  · intro h
    simp [resumeToText, projectsSection, h, String.append_empty]
  · intro h
    refine ⟨headerText r.personalInfo ++ (experienceSection r.experience ++
      (educationSection r.education ++ skillsSection r.skills)),
      String.join (r.projects.map projEntryText), ?_⟩
    have hl : 0 < r.projects.length := List.length_pos.mpr h
    simp [resumeToText, projectsSection, hl, String.append_assoc]

/-- Witness for C3 at a concrete draft with no experience entries and
one skill. -/
theorem C3_text_projection_sections_witness :
    resumeToText builderInitialResumeData =
      headerText builderInitialResumeData.personalInfo ++
        educationSection builderInitialResumeData.education ++
        skillsSection builderInitialResumeData.skills ++
        projectsSection builderInitialResumeData.projects ∧
    (∃ a b, resumeToText { builderInitialResumeData with skills := ["Lean"] }
      = a ++ ("SKILLS\n" ++ b)) :=
  ⟨(C3_text_projection_sections builderInitialResumeData).2.1 rfl,
    (C3_text_projection_sections { builderInitialResumeData with skills := ["Lean"] }).2.2.2.2.2.2.1
      (by decide)⟩

/-- C1 counterexample: save `templateStyle: "modern"` then save
`templateStyle: ""`.  The claim says a present string field — including
an empty string — replaces the prior value wholesale, so `load()` would
have to return `""`; the store actually retains `"modern"` because the
top-level merge uses `||` and `""` is falsy. -/
theorem C1_counterexample :
    (getResumeFromLocalStorage
      (saveResumeToLocalStorage 2 { templateStyle := some "" }
        (saveResumeToLocalStorage 1 { templateStyle := some "modern" } none))).templateStyle
      = "modern" ∧ ("modern" : String) ≠ "" :=
  ⟨by decide, by decide⟩

/-- C1 (amended): `load()` after saving D1 then D2 on a fresh store
equals D2 merged over D1 merged over the fixed defaults, where the merge
is shallow at top level and one level deeper for `personalInfo`;
a present array (even empty) and a present boolean (even `false`)
replace wholesale, a present `personalInfo` subfield (even `""`)
replaces, absent fields retain the prior value — but a present top-level
string field replaces only when non-empty (an empty string retains the
prior value). -/
theorem C1_save_save_load_merge (t1 t2 : Nat) (D1 D2 : PartialResume) :
    getResumeFromLocalStorage
        (saveResumeToLocalStorage t2 D2 (saveResumeToLocalStorage t1 D1 none))
      = mergeSave t2 D2 (mergeSave t1 D1 defaultData) ∧
    (∀ (now : Nat) (cur : SavedResumeData) (xs : List String),
      (mergeSave now { D2 with skills := some xs } cur).skills = xs) ∧
    (∀ (now : Nat) (cur : SavedResumeData) (b : Bool),
      (mergeSave now { D2 with isAtsOptimized := some b } cur).isAtsOptimized = b) ∧
    (∀ (now : Nat) (cur : SavedResumeData) (q : PartialPersonalInfo),
      (mergeSave now { D2 with personalInfo := some { q with firstName := some "" } }
        cur).personalInfo.firstName = "") ∧
    (∀ (now : Nat) (cur : SavedResumeData),
      (mergeSave now { D2 with templateStyle := some "" } cur).templateStyle
        = cur.templateStyle) ∧
    (∀ (now : Nat) (cur : SavedResumeData),
      mergeSave now ({} : PartialResume) cur = { cur with lastUpdated := now }) := by
  refine ⟨?_, ?_, ?_, ?_, ?_, ?_⟩
  · have h1 : (mergeSave t1 D1 defaultData).targetRole.isSome :=
      mergeSave_targetRole_isSome t1 D1 defaultData rfl
    have hnone : getResumeFromLocalStorage none = defaultData := rfl
    rw [saveResumeToLocalStorage, saveResumeToLocalStorage, hnone,
      load_parsable_eq _ h1,
      load_parsable_eq _ (mergeSave_targetRole_isSome t2 D2 _ h1)]
  · intro now cur xs
    rfl
  · intro now cur b
    rfl
  · intro now cur q
    rfl
  · intro now cur
    simp [mergeSave, jsOrStr]
  · intro now cur
    cases cur with
    | mk pi edu exp sk pr ts cs ats tr lu =>
      simp [mergeSave, mergePersonalInfo, jsOrStr, jsOrOptStr, spreadOpt]

/-- C6 counterexample: `MemStorage.updateResume` spreads the payload
over the stored record without stripping anything, so an update payload
carrying `atsScore: 88` persists that score, and one carrying `id: 99`
rewrites the stored id — the claim that every repository update strips
`id` and `atsScore` fails on `MemStorage`. -/
theorem C6_counterexample :
    ((MemStorage.updateResume sampleTable 5 1 { atsScore := some (some 88) }).1.map
        ResumeData.atsScore) = some (some 88) ∧
    sampleRow.atsScore = none ∧
    ((MemStorage.updateResume sampleTable 5 1 { id := some 99 }).1.map
        ResumeData.id) = some 99 ∧
    sampleRow.id = 1 :=
  ⟨by decide, by decide, by decide, by decide⟩

/-- C6 (amended): `DatabaseStorage.updateResume` strips the
server-managed `id` and `atsScore` from the payload before persisting
and leaves every field not present in the payload untouched (only
provided fields and `updatedAt` change); `MemStorage.updateResume`
leaves absent fields untouched and stamps `updatedAt`, but does not
strip — a payload `id` or `atsScore` is persisted as given. -/
theorem C6_update_strips_only_in_db (t : ResumeTable) (now id : Nat)
    (data : PartialResumeData) (existing : ResumeData)
    (h : t.lookup id = some existing) :
    (∃ updated,
      DatabaseStorage.updateResume t now id data = (some updated, t.set id updated) ∧
      updated.id = existing.id ∧
      updated.atsScore = existing.atsScore ∧
      updated.updatedAt = now ∧
      updated.userId = data.userId.getD existing.userId ∧
      updated.firstName = data.firstName.getD existing.firstName ∧
      updated.lastName = data.lastName.getD existing.lastName ∧
      updated.email = data.email.getD existing.email ∧
      updated.phone = data.phone.getD existing.phone ∧
      updated.summary = data.summary.getD existing.summary ∧
      updated.website = data.website.getD existing.website ∧
      updated.linkedin = data.linkedin.getD existing.linkedin ∧
      updated.education = data.education.getD existing.education ∧
      updated.experience = data.experience.getD existing.experience ∧
      updated.skills = data.skills.getD existing.skills ∧
      updated.projects = data.projects.getD existing.projects ∧
      updated.templateStyle = data.templateStyle.getD existing.templateStyle ∧
      updated.colorScheme = data.colorScheme.getD existing.colorScheme ∧
      updated.targetRole = data.targetRole.getD existing.targetRole ∧
      updated.isAtsOptimized = data.isAtsOptimized.getD existing.isAtsOptimized ∧
      updated.createdAt = data.createdAt.getD existing.createdAt) ∧
    (∃ updated,
      MemStorage.updateResume t now id data = (some updated, t.set id updated) ∧
      updated.id = data.id.getD existing.id ∧
      updated.atsScore = data.atsScore.getD existing.atsScore ∧
      updated.updatedAt = now ∧
      updated.firstName = data.firstName.getD existing.firstName ∧
      updated.skills = data.skills.getD existing.skills ∧
      (data.firstName = none → updated.firstName = existing.firstName) ∧
      (data.atsScore = none → updated.atsScore = existing.atsScore)) := by
  constructor
  · simp only [DatabaseStorage.updateResume, h]
    exact ⟨_, rfl, rfl, rfl, rfl, rfl, rfl, rfl, rfl, rfl, rfl, rfl, rfl,
      rfl, rfl, rfl, rfl, rfl, rfl, rfl, rfl, rfl⟩
  · simp only [MemStorage.updateResume, h]
    refine ⟨_, rfl, rfl, rfl, rfl, rfl, rfl, ?_, ?_⟩
    · intro hnone
      simp [hnone]
    · intro hnone
      simp [hnone]

/-- Witness for C6 (amended) at a concrete table, record and payload:
the database-side update of `firstName` keeps the stored `atsScore` and
`id` untouched. -/
theorem C6_update_strips_only_in_db_witness :
    ∃ updated,
      DatabaseStorage.updateResume sampleTable 5 1
          { firstName := some (some "Bo"), atsScore := some (some 70) }
        = (some updated, sampleTable.set 1 updated) ∧
      updated.atsScore = none ∧ updated.id = 1 ∧ updated.firstName = some "Bo" := by
  obtain ⟨⟨u, hu, hid, hats, _, _, hfn, _⟩, _⟩ :=
    C6_update_strips_only_in_db sampleTable 5 1
      { firstName := some (some "Bo"), atsScore := some (some 70) } sampleRow (by decide)
  exact ⟨u, hu, by rw [hats]; decide, by rw [hid]; decide, by rw [hfn]; decide⟩

/-- Setting a key that is not yet in the table and looking it up returns
the new row. -/
theorem lookup_set_fresh (t : ResumeTable) (id : Nat) (r : ResumeData)
    (h : ∀ p ∈ t.rows, p.1 ≠ id) :
    (t.set id r).lookup id = some r := by
  have hfind : t.rows.find? (fun p => p.1 = id) = none :=
    List.find?_eq_none.mpr (fun x hx => by simpa using h x hx)
  have hany : t.rows.any (fun p => p.1 = id) = false := by
    rw [Bool.eq_false_iff]
    intro hc
    obtain ⟨x, hx, hpx⟩ := List.any_eq_true.mp hc
    exact h x hx (by simpa using hpx)
  simp [ResumeTable.set, hany, ResumeTable.lookup, List.find?_append, hfind]

/-- C7 counterexample: create with `firstName: ""` (a supplied value)
and read the record back — the stored `firstName` is `null`, not the
supplied `""`, because every string field is defaulted with `||` and
`""` is falsy.  The round-trip claim "user-editable fields equal the
input as supplied" fails. -/
theorem C7_counterexample :
    ((MemStorage.getResume
        (MemStorage.createResume emptyResumeTable 7 { firstName := some (some "") }).2
        (MemStorage.createResume emptyResumeTable 7 { firstName := some (some "") }).1.id).map
      ResumeData.firstName) = some none ∧
    (some (none : Option String)) ≠ some (some "") :=
  ⟨by decide, by decide⟩

/-- C7 (amended): creating then reading back by the returned id yields
the created record, with `id`/timestamps populated and `atsScore` null
when not supplied (`MemStorage` stores null even when it is supplied,
and `DatabaseStorage` strips it); list fields read back as supplied
(`[]` when omitted), booleans as supplied (`false` when omitted), and
string fields read back as supplied when the supplied string is
non-empty — an empty or omitted string is stored as `null`, and omitted
`templateStyle`/`colorScheme` take the domain defaults. -/
theorem C7_create_read_roundtrip (t : ResumeTable) (now : Nat)
    (data : PartialResumeData) (h : ∀ p ∈ t.rows, p.1 ≠ t.nextId) :
    (∃ r t2,
      MemStorage.createResume t now data = (r, t2) ∧
      MemStorage.getResume t2 r.id = some r ∧
      r.id = t.nextId ∧ r.createdAt = now ∧ r.updatedAt = now ∧
      r.atsScore = none ∧
      r.firstName = jsOrNull data.firstName ∧
      r.email = jsOrNull data.email ∧
      r.education = data.education.getD [] ∧
      r.experience = data.experience.getD [] ∧
      r.skills = data.skills.getD [] ∧
      r.projects = data.projects.getD [] ∧
      r.templateStyle = some (jsOrStrDefault data.templateStyle "professional") ∧
      r.colorScheme = some (jsOrStrDefault data.colorScheme "blue") ∧
      r.targetRole = jsOrNull data.targetRole ∧
      r.isAtsOptimized = data.isAtsOptimized.getD false ∧
      (∀ s, data.firstName = some (some s) → s ≠ "" → r.firstName = some s)) ∧
    (∃ r t2,
      DatabaseStorage.createResume t now data = (r, t2) ∧
      DatabaseStorage.getResume t2 r.id = some r ∧
      r.id = t.nextId ∧ r.atsScore = none ∧ r.createdAt = now ∧
      r.updatedAt = now ∧ r.firstName = jsOrNull data.firstName) := by
  constructor
  · refine ⟨buildCreatedRow t.nextId now data, _, rfl, ?_, rfl, rfl, rfl, rfl,
      rfl, rfl, rfl, rfl, rfl, rfl, rfl, rfl, rfl, rfl, ?_⟩
    · exact lookup_set_fresh t t.nextId (buildCreatedRow t.nextId now data) h
    · intro s hs hne
      simp [buildCreatedRow, jsOrNull, hs, hne]
  · refine ⟨buildCreatedRow t.nextId now { data with atsScore := none }, _,
      rfl, ?_, rfl, rfl, rfl, rfl, rfl⟩
    exact lookup_set_fresh t t.nextId
      (buildCreatedRow t.nextId now { data with atsScore := none }) h

/-- Witness for C7 (amended) at a concrete creation on the empty
repository. -/
theorem C7_create_read_roundtrip_witness :
    ∃ r t2,
      MemStorage.createResume emptyResumeTable 7
          { firstName := some (some "Ana"), email := some (some "ana@example.com") }
        = (r, t2) ∧
      MemStorage.getResume t2 r.id = some r ∧ r.atsScore = none ∧
      r.firstName = some "Ana" := by
  obtain ⟨⟨r, t2, h1, h2, _, _, _, hats, hfn, _⟩, _⟩ :=
    C7_create_read_roundtrip emptyResumeTable 7
      { firstName := some (some "Ana"), email := some (some "ana@example.com") }
      (by simp [emptyResumeTable])
  exact ⟨r, t2, h1, h2, hats, by rw [hfn]; decide⟩

/-- C8 counterexample: the path segment `"12abc"` is not numeric, yet
the handler does not answer 400 — `parseInt` reads the leading `12` and
the request proceeds to lookup (here: 404 on an empty table). -/
theorem C8_counterexample :
    isNumericSegment "12abc" = false ∧
    jsParseInt "12abc" = some 12 ∧
    getResumeRoute emptyResumeTable "12abc" = .notFound ∧
    GetResumeResponse.notFound ≠ .badRequest :=
  ⟨by decide, by decide, by decide, by decide⟩

/-- C8 (amended): the handler answers 400 exactly when `parseInt` on the
id segment yields `NaN` (no leading integer); when it yields a number
and no record with that id exists the answer is 404, otherwise the
record is returned — and every numeric segment does parse, so numeric
ids are never rejected with 400. -/
theorem C8_get_resume_route (t : ResumeTable) (s : String) :
    (jsParseInt s = none → getResumeRoute t s = .badRequest) ∧
    (∀ n, jsParseInt s = some n → lookupIntId t n = none →
      getResumeRoute t s = .notFound) ∧
    (∀ n r, jsParseInt s = some n → lookupIntId t n = some r →
      getResumeRoute t s = .ok r) ∧
    (isNumericSegment s = true → jsParseInt s = some (digitsToNat s.data)) := by
  refine ⟨?_, ?_, ?_, ?_⟩
  · intro h
    simp [getResumeRoute, h]
  · intro n hn hl
    simp [getResumeRoute, hn, hl]
  · intro n r hn hl
    simp [getResumeRoute, hn, hl]
  · intro h
    simp only [isNumericSegment, ne_eq, decide_eq_true_eq,
      List.all_eq_true] at h
    obtain ⟨hs1, hdig0⟩ := h
    have hdig : ∀ x ∈ s.data, x.isDigit = true := fun x hx => by
      simpa using hdig0 x hx
    have hne : s.data ≠ [] := by
      intro hnil
      exact hs1 (String.ext (by simp [hnil]))
    obtain ⟨c, rest, hcr⟩ := List.exists_cons_of_ne_nil hne
    have hc : c.isDigit = true := hdig c (by rw [hcr]; exact List.mem_cons_self c rest)
    have hdrop : s.data.dropWhile jsWhitespace = s.data := by
      rw [hcr, List.dropWhile_cons]
      have hw : jsWhitespace c = false := by
        simp only [jsWhitespace, decide_eq_false_iff_not]
        rintro (rfl | rfl | rfl | rfl) <;> exact absurd hc (by decide)
      simp [hw]
    have htake : s.data.takeWhile Char.isDigit = s.data :=
      List.takeWhile_eq_self_iff.mpr hdig
    have hcminus : ¬(c = '-') := by
      intro hq
      subst hq
      exact absurd hc (by decide)
    have hcplus : ¬(c = '+') := by
      intro hq
      subst hq
      exact absurd hc (by decide)
    have haux : jsParseIntAux s.data = jsParseIntSigned 1 s.data := by
      rw [hcr]
      simp only [jsParseIntAux, if_neg hcminus, if_neg hcplus]
    have hempty : s.data.isEmpty = false := by
      rw [hcr]
      rfl
    rw [jsParseInt, hdrop, haux, jsParseIntSigned, htake, hempty]
    simp

/-- Witness for C8 at concrete path segments on the empty table. -/
theorem C8_get_resume_route_witness :
    getResumeRoute emptyResumeTable "abc" = .badRequest ∧
    getResumeRoute emptyResumeTable "3" = .notFound ∧
    jsParseInt "42" = some (digitsToNat "42".data) := by
  refine ⟨(C8_get_resume_route emptyResumeTable "abc").1 (by decide),
    (C8_get_resume_route emptyResumeTable "3").2.1 3 (by decide) (by decide),
    (C8_get_resume_route emptyResumeTable "42").2.2.2 (by decide)⟩

/-- The JS `filter((_, i) => i !== index)` idiom deletes exactly the
entry at `index`: filtering the enumeration from `n` by key `≠ n + i`
erases the `i`-th element. -/
theorem enumFrom_filter_ne_eraseIdx {α : Type} (l : List α) (n i : Nat) :
    ((l.enumFrom n).filter (fun p => p.1 ≠ n + i)).map Prod.snd = l.eraseIdx i := by
  induction l generalizing n i with
  | nil => simp
  | cons a l ih =>
    cases i with
    | zero =>
      simp only [List.enumFrom, List.filter_cons]
      have h0 : (decide (n ≠ n + 0)) = false := by simp
      rw [h0]
      have hself : (l.enumFrom (n + 1)).filter (fun p => decide (p.1 ≠ n + 0)) =
          l.enumFrom (n + 1) := by
        apply List.filter_eq_self.mpr
        intro p hp
        have hle := (List.mem_enumFrom (x := p.2) (i := p.1) (j := n + 1) (by simpa using hp)).1
        simp only [decide_eq_true_eq]
        omega
      simp only [Bool.false_eq_true, if_false, hself, List.enumFrom_map_snd]
      rfl
    | succ i =>
      simp only [List.enumFrom, List.filter_cons]
      have h1 : (decide (n ≠ n + (i + 1))) = true := by
        simp only [decide_eq_true_eq]
        omega
      rw [h1]
      simp only [if_true, List.map_cons]
      have heq : n + (i + 1) = (n + 1) + i := by omega
      rw [heq, ih]
      rfl

/-- Under unique ids, removing the entry at a position coincides with
filtering out the id of that entry. -/
theorem eraseIdx_eq_removeById_of_nodup (l : List EducationItem) (i : Nat)
    (h : i < l.length) (hnd : (l.map EducationItem.id).Nodup) :
    l.eraseIdx i = removeEducationById l (l.get ⟨i, h⟩).id := by
  induction l generalizing i with
  | nil => simp at h
  | cons a l ih =>
    rw [List.map_cons, List.nodup_cons] at hnd
    cases i with
    | zero =>
      simp only [List.get, removeEducationById, List.filter_cons]
      have ha : (decide (a.id ≠ a.id)) = false := by simp
      rw [ha]
      have hself : l.filter (fun e => decide (e.id ≠ a.id)) = l := by
        apply List.filter_eq_self.mpr
        intro e he
        simp only [decide_eq_true_eq]
        intro hcontra
        exact hnd.1 (hcontra ▸ List.mem_map_of_mem EducationItem.id he)
      simp only [Bool.false_eq_true, if_false, hself]
      rfl
    | succ i =>
      have hi : i < l.length := by simpa using h
      simp only [List.get, removeEducationById, List.filter_cons]
      have ha : (decide (a.id ≠ (l.get ⟨i, hi⟩).id)) = true := by
        simp only [decide_eq_true_eq]
        intro hcontra
        exact hnd.1 (hcontra ▸ List.mem_map_of_mem EducationItem.id
          (List.get_mem l i hi))
      rw [ha]
      simp only [if_true, List.eraseIdx]
      rw [ih i hi hnd.2]
      rfl

/-- C9 counterexample: the form Remove button at position 0 deletes by
position (`remove(0)` keeps the second entry), while removal by the
identity of the deleted entry would drop every entry with that id — the two
disagree, so deletion is by positional index, not by id. -/
theorem C9_counterexample :
    removeFieldAt [eduA, eduB] 0 = [eduB] ∧
    removeEducationById [eduA, eduB] eduA.id = [] ∧
    ([eduB] : List EducationItem) ≠ [] :=
  ⟨by decide, by decide, by decide⟩

/-- C9 (amended): deletion of a draft list entry removes it by
positional index — `remove(index)` for education/experience/projects and
an index filter for skills — leaving the remaining entries (and their
ids) unchanged, in order; only under the draft invariant that ids are
unique does index removal coincide with removal of the id of the deleted entry. -/
theorem C9_removal_by_index (l : List EducationItem) (i : Nat)
    (h : i < l.length) :
    removeFieldAt l i = l.take i ++ l.drop (i + 1) ∧
    (∀ (skills : List String) (j : Nat),
      handleRemoveSkill skills j = skills.eraseIdx j) ∧
    ((l.map EducationItem.id).Nodup →
      removeFieldAt l i = removeEducationById l (l.get ⟨i, h⟩).id) := by
  refine ⟨List.eraseIdx_eq_take_drop_succ l i, ?_, ?_⟩
  · intro skills j
    have := enumFrom_filter_ne_eraseIdx skills 0 j
    simpa [handleRemoveSkill, List.enum] using this
  · intro hnd
    exact eraseIdx_eq_removeById_of_nodup l i h hnd

/-- Witness for C9 at a concrete two-entry list with distinct ids. -/
theorem C9_removal_by_index_witness :
    removeFieldAt [eduA, eduC] 0 = [eduA, eduC].take 0 ++ [eduA, eduC].drop 1 ∧
    handleRemoveSkill ["a", "b", "c"] 1 = ["a", "b", "c"].eraseIdx 1 ∧
    removeFieldAt [eduA, eduC] 0
      = removeEducationById [eduA, eduC] ([eduA, eduC].get ⟨0, by decide⟩).id := by
  have h := C9_removal_by_index [eduA, eduC] 0 (by decide)
  exact ⟨h.1, h.2.1 ["a", "b", "c"] 1, h.2.2 (by decide)⟩
